import Mathlib

/-!
Shallow embedding of `flaskbb/plugins/__init__.py` (FlaskBB plugin system):
plugin discovery (`FlaskBBPluginManager.load_plugins`), per-plugin table
tagging (`db_for_plugin`), migration scoping (`plugin_name_migrate`,
`config_migrate`) and the `FlaskBBPlugin` base class.

Python state is made explicit: the flask `g` object becomes a `GState`
record threaded through computations, Python dicts become association
lists with most-recent-binding lookup, raised exceptions become `Except`,
and `os.path.join` is embedded with its POSIX semantics.
-/

/-- Python exceptions raised (or raisable) by the embedded code.
`pluginError c` carries the offending `__plugin__` class name from
`FlaskBBPluginManager.load_plugins`. -/
inductive PyErr where
  | attributeError : PyErr
  | typeError : PyErr
  | pluginError (className : String) : PyErr
deriving DecidableEq, Repr

/-- Python dict lookup on an association list where the most recent
assignment was consed on the front (`dictSet`). -/
def dictGet {α : Type} : List (String × α) → String → Option α
  | [], _ => none
  | (k, v) :: m, i => if i = k then some v else dictGet m i

/-- Python dict assignment `d[k] = v`: the new binding shadows older ones. -/
def dictSet {α : Type} (m : List (String × α)) (k : String) (v : α) :
    List (String × α) :=
  (k, v) :: m

/-- POSIX `os.path.join` step: absolute component resets the path, empty or
slash-terminated accumulator is extended without a separator. -/
def ospath_join_step (acc b : String) : String :=
  if b.startsWith "/" then b
  else if acc = "" ∨ acc.endsWith "/" then acc ++ b
  else acc ++ "/" ++ b

/-- POSIX `os.path.join(path0, *comps)`. -/
def ospath_join (path0 : String) (comps : List String) : String :=
  comps.foldl ospath_join_step path0

/-- The flask `g` request-global object: `plugin_name` is `some n` when the
attribute is set, `none` when it is absent; `others` stands for any other
attributes stored on `g`. -/
structure GState where
  plugin_name : Option String
  others : List (String × String)
deriving DecidableEq, Repr

/-- `plugin_name_migrate(name)` from the source: a `@contextlib.contextmanager`
that runs `g.plugin_name = name`, yields to the body, and on normal return of
the body executes `del g.plugin_name` (Python `del` raises `AttributeError`
when the attribute is absent).  An exception from the body propagates at the
yield point, so the `del` after the yield is skipped. -/
def plugin_name_migrate (name : String)
    (body : GState → Except PyErr Unit × GState) (g : GState) :
    Except PyErr Unit × GState :=
  let g1 : GState := { g with plugin_name := some name }
  match body g1 with
  | (Except.ok _, g2) =>
    match g2.plugin_name with
    | some _ => (Except.ok (), { g2 with plugin_name := none })
    | none => (Except.error PyErr.attributeError, g2)
  | (Except.error e, g2) => (Except.error e, g2)

/-- A table object produced by the ORM's `Table(*args, **kwargs)`: the
constructor arguments determine the underlying table, `_plugin` is the
ownership attribute (absent on tables the plain ORM builds, unless the
instance's own `Table` sets it). -/
structure SQLATable where
  ctor_args : List String
  ctor_kwargs : List (String × String)
  _plugin : Option String
deriving DecidableEq, Repr

/-- A Flask-SQLAlchemy instance: a `Table` factory plus its other attributes
(which `copy.copy` copies shallowly). -/
structure SQLAInstance where
  Table : List String → List (String × String) → SQLATable
  attrs : List (String × String)

/-- `db_for_plugin(plugin_name, sqla_instance)` from the source: shallow-copies
the instance and overrides `Table` with a wrapper that builds the table with
the original instance's `Table` and sets `new_table._plugin = plugin_name`. -/
def db_for_plugin (plugin_name : String) (sqla_instance : SQLAInstance) :
    SQLAInstance :=
  let new_db := sqla_instance
  { new_db with
    Table := fun args kwargs =>
      let new_table := sqla_instance.Table args kwargs
      { new_table with _plugin := some plugin_name } }

/-- The state of a `FlaskBBPlugin` instance: `path` is set by the base-class
constructor, `settings_key` is the class attribute defaulting to `None`. -/
structure FlaskBBPlugin where
  path : String
  settings_key : Option String := none
deriving DecidableEq, Repr

/-- `FlaskBBPlugin.resource_filename(*names)` from the source: a single
argument containing `/` is split on `/`; the pieces are joined onto
`self.path`; a result containing a space but no double or single quote is
wrapped in double quotes. -/
def resource_filename (p : FlaskBBPlugin) (names : List String) : String :=
  let names1 :=
    if names.length == 1 && (names.headD "").contains '/' then
      (names.headD "").splitOn "/"
    else names
  let fname := ospath_join p.path names1
  if fname.contains ' ' && !fname.contains '"' && !fname.contains '\x27' then
    "\"" ++ fname ++ "\""
  else fname

/-- `FlaskBBPlugin.get_migration_version_dir` from the source. -/
def get_migration_version_dir (p : FlaskBBPlugin) : String :=
  resource_filename p ["migration_versions"]

/-- `FlaskBBPlugin.installable` from the source: `True` iff `settings_key`
is not `None`. -/
def installable (p : FlaskBBPlugin) : Bool :=
  if p.settings_key ≠ none then true else false

/-- The invocation of the migration tool's `upgrade`/`downgrade` command that
the thin wrappers construct: target directory and revision string. -/
structure MigrationCommand where
  directory : String
  revision : String
deriving DecidableEq, Repr

/-- `FlaskBBPlugin.upgrade_database(target='head')` from the source:
`upgrade(directory=os.path.join(plugin_dir, '_migration_environment'),
revision=self.settings_key + '@' + target)`.  `plugin_folder` stands for
`current_app.extensions['plugin_manager'].plugin_folder`; a `None`
`settings_key` makes the `+` raise `TypeError`. -/
def upgrade_database (plugin_folder : String) (p : FlaskBBPlugin)
    (target : optParam String "head") : Except PyErr MigrationCommand :=
  match p.settings_key with
  | none => Except.error PyErr.typeError
  | some key =>
    Except.ok
      ⟨ospath_join plugin_folder ["_migration_environment"],
        key ++ "@" ++ target⟩

/-- `FlaskBBPlugin.downgrade_database(target='base')` from the source. -/
def downgrade_database (plugin_folder : String) (p : FlaskBBPlugin)
    (target : optParam String "base") : Except PyErr MigrationCommand :=
  match p.settings_key with
  | none => Except.error PyErr.typeError
  | some key =>
    Except.ok
      ⟨ospath_join plugin_folder ["_migration_environment"],
        key ++ "@" ++ target⟩

/-- The migration config object handed to `config_migrate`: its main options,
as read by `get_main_option` and written by `set_main_option`. -/
structure MigrationConfig where
  main_options : List (String × String)
deriving DecidableEq, Repr

/-- Alembic `config.get_main_option(name)` (no explicit default: absent
options read as `None`). -/
def get_main_option (c : MigrationConfig) (k : String) : Option String :=
  dictGet c.main_options k

/-- Alembic `config.set_main_option(name, value)`. -/
def set_main_option (c : MigrationConfig) (k v : String) : MigrationConfig :=
  ⟨dictSet c.main_options k v⟩

/-- `config_migrate(config)` from the source.  `plugins` stands for
`current_app.extensions['plugin_manager'].all_plugins.values()`. -/
def config_migrate (plugins : List FlaskBBPlugin) (config : MigrationConfig) :
    MigrationConfig :=
  let migration_dirs := plugins.map get_migration_version_dir
  if get_main_option config "version_table" = some "plugins" then
    set_main_option config "version_locations"
      (String.intercalate " " migration_dirs)
  else config

/-- The plugin class named by a package's `__plugin__` attribute.
Instantiating it with the plugin path yields an instance whose `identifier`
is this field (in `flask_plugins` the identifier is derived from the class,
not from the path). -/
structure PluginClass where
  identifier : String
deriving DecidableEq, Repr

/-- A plugin instance `plugin_class(plugin_path)` as the manager records it. -/
structure PluginInstance where
  identifier : String
  path : String
deriving DecidableEq, Repr

/-- A package discovered by `pkgutil.iter_modules` and imported, with the
facts `load_plugins` queries about it: whether `pkgutil.get_data(pkgname,
'DISABLED')` succeeds (a DISABLED marker file exists), the value of its
`__plugin__` attribute if any, its class attributes for the `getattr`
lookup, and the directory of its file. -/
structure PluginPackage where
  pkgname : String
  hasDisabled : Bool
  dunder_plugin : Option String
  classAttrs : List (String × PluginClass)
  pkgpath : String
deriving DecidableEq, Repr

/-- The manager dictionaries `load_plugins` fills: `_plugins` (enabled only),
`_all_plugins`, and `_found_plugins` (class name to package name, inherited
from the manager and not cleared by `load_plugins`). -/
structure LoadState where
  _plugins : List (String × PluginInstance)
  _all_plugins : List (String × PluginInstance)
  _found_plugins : List (String × String)
deriving DecidableEq, Repr

/-- One iteration of the `for pkgname, pkg in pluginmodules` loop of
`FlaskBBPluginManager.load_plugins`: check the DISABLED marker, skip
(`continue`) packages without `__plugin__`, record the class name in
`_found_plugins`, raise `PluginError` when the named class is missing,
otherwise instantiate and record the plugin. -/
def loadPluginStep (st : LoadState) (pkg : PluginPackage) :
    Except PyErr LoadState :=
  let enabled := !pkg.hasDisabled
  match pkg.dunder_plugin with
  | none => Except.ok st
  | some class_name =>
    let st1 :=
      { st with
        _found_plugins := dictSet st._found_plugins class_name pkg.pkgname }
    match dictGet pkg.classAttrs class_name with
    | none => Except.error (PyErr.pluginError class_name)
    | some plugin_class =>
      let plugin_instance : PluginInstance :=
        ⟨plugin_class.identifier, pkg.pkgpath⟩
      Except.ok
        { st1 with
          _plugins :=
            if enabled then
              dictSet st1._plugins plugin_instance.identifier plugin_instance
            else st1._plugins,
          _all_plugins :=
            dictSet st1._all_plugins plugin_instance.identifier
              plugin_instance }

/-- The package loop of `load_plugins`, stopping at the first raised error. -/
def load_plugins_loop (st : LoadState) :
    List PluginPackage → Except PyErr LoadState
  | [] => Except.ok st
  | pkg :: pkgs =>
    match loadPluginStep st pkg with
    | Except.ok st1 => load_plugins_loop st1 pkgs
    | Except.error e => Except.error e

/-- `FlaskBBPluginManager.load_plugins` from the source: `_plugins` and
`_all_plugins` are reset to empty dicts, `_found_plugins` keeps its prior
contents `found0`, then every discovered package `pkgs` is processed in
order. -/
def load_plugins (found0 : List (String × String))
    (pkgs : List PluginPackage) : Except PyErr LoadState :=
  load_plugins_loop ⟨[], [], found0⟩ pkgs

/-- The identifier a package contributes to the manager dictionaries:
`some i` when the package has a `__plugin__` attribute naming an existing
class whose instances have identifier `i`, `none` otherwise. -/
def pkgIdent (pkg : PluginPackage) : Option String :=
  (pkg.dunder_plugin.bind (fun c => dictGet pkg.classAttrs c)).map
    (fun plugin_class => plugin_class.identifier)

/-! ## Helper lemmas -/

/-- Reading back the key just assigned yields the assigned value. -/
theorem dictGet_set_self {α : Type} (m : List (String × α)) (k : String)
    (v : α) : dictGet (dictSet m k v) k = some v := by
  simp [dictGet, dictSet]

/-- Assigning one key leaves every other key's value unchanged. -/
theorem dictGet_set_ne {α : Type} (m : List (String × α)) (k i : String)
    (v : α) (h : i ≠ k) : dictGet (dictSet m k v) i = dictGet m i := by
  simp [dictGet, dictSet, h]

/-! ## Claims -/

/-- Claim C1: for every plugin name `n` and table-construction arguments,
the `Table` of `db_for_plugin n inst` produces exactly the table
`inst.Table` would produce for those arguments, with the added `_plugin`
attribute equal to `n`. -/
theorem db_for_plugin_table_tagged (n : String) (inst : SQLAInstance)
    (args : List String) (kwargs : List (String × String)) :
    ((db_for_plugin n inst).Table args kwargs).ctor_args =
      (inst.Table args kwargs).ctor_args
    ∧ ((db_for_plugin n inst).Table args kwargs).ctor_kwargs =
      (inst.Table args kwargs).ctor_kwargs
    ∧ ((db_for_plugin n inst).Table args kwargs)._plugin = some n :=
  ⟨rfl, rfl, rfl⟩

/-- Claim C10: `db_for_plugin` is pure in this embedding (the instance passed
in is left untouched), and the instance it returns is a shallow copy agreeing
with the original on every attribute other than `Table`. -/
theorem db_for_plugin_shallow_copy (n : String) (inst : SQLAInstance) :
    (db_for_plugin n inst).attrs = inst.attrs
    ∧ db_for_plugin n inst =
      { inst with Table := (db_for_plugin n inst).Table } :=
  ⟨rfl, rfl⟩

/-- Claim C7: `installable` is `True` iff `settings_key` is not `None`; a
plugin leaving `settings_key` at its default of `None` is never
installable. -/
theorem installable_iff_settings_key (p : FlaskBBPlugin) :
    (installable p = true ↔ p.settings_key ≠ none)
    ∧ ∀ path : String, installable { path := path } = false := by
  constructor
  · by_cases h : p.settings_key = none <;> simp [installable, h]
  · intro path
    rfl

/-- Claim C7 witness: a plugin with a settings key is installable. -/
theorem installable_iff_settings_key_witness :
    installable ⟨"/plugins/portal", some "portal"⟩ = true :=
  (installable_iff_settings_key ⟨"/plugins/portal", some "portal"⟩).1.mpr
    (by decide)

/-- Claim C9: `resource_filename` splits a single slash-containing argument
into components, joins the components onto `p.path`, and returns the joined
path verbatim unless it contains a space and neither kind of quote, in which
case it is wrapped in double quotes. -/
theorem resource_filename_spec (p : FlaskBBPlugin) (names : List String) :
    resource_filename p names =
      (let comps :=
        match names with
        | [n] => if n.contains '/' then n.splitOn "/" else [n]
        | _ => names
      let joined := ospath_join p.path comps
      if joined.contains ' ' && !joined.contains '"' &&
          !joined.contains '\x27' then
        "\"" ++ joined ++ "\""
      else joined) := by
  cases names with
  | nil => rfl
  | cons a l =>
    cases l with
    | nil => by_cases h : a.contains '/' <;> simp [resource_filename, h]
    | cons b l2 => rfl

/-- Claim C4: entering `plugin_name_migrate n` sets `g.plugin_name` to `n`
for the body, and on normal (non-exceptional) completion of the body the
`plugin_name` attribute is no longer present on `g`. -/
theorem plugin_name_migrate_normal_exit (n : String)
    (body : GState → Except PyErr Unit × GState) (g g2 : GState)
    (h : body { g with plugin_name := some n } = (Except.ok (), g2)) :
    ({ g with plugin_name := some n } : GState).plugin_name = some n
    ∧ (plugin_name_migrate n body g).2.plugin_name = none := by
  refine ⟨rfl, ?_⟩
  unfold plugin_name_migrate
  dsimp only
  rw [h]
  cases hp : g2.plugin_name <;> simp [hp]

/-- Claim C4 witness: with a body that returns normally without touching `g`,
the attribute is set on entry and absent afterwards. -/
theorem plugin_name_migrate_normal_exit_witness :
    ({ (⟨none, []⟩ : GState) with plugin_name := some "portal" } :
        GState).plugin_name = some "portal"
    ∧ (plugin_name_migrate "portal"
        (fun s => ((Except.ok () : Except PyErr Unit), s))
        ⟨none, []⟩).2.plugin_name = none :=
  plugin_name_migrate_normal_exit "portal"
    (fun s => ((Except.ok () : Except PyErr Unit), s))
    ⟨none, []⟩ ⟨some "portal", []⟩ rfl

/-- Claim C8: when the body raises, `plugin_name_migrate` propagates the
exception and performs no cleanup: for a body that leaves the attribute as
set on entry, `g.plugin_name` remains `n` after the context exits. -/
theorem plugin_name_migrate_exceptional_exit (n : String)
    (body : GState → Except PyErr Unit × GState) (g g2 : GState) (e : PyErr)
    (h : body { g with plugin_name := some n } = (Except.error e, g2))
    (hkeep : g2.plugin_name = some n) :
    plugin_name_migrate n body g = (Except.error e, g2)
    ∧ (plugin_name_migrate n body g).2.plugin_name = some n := by
  have h1 : plugin_name_migrate n body g = (Except.error e, g2) := by
    unfold plugin_name_migrate
    dsimp only
    rw [h]
  exact ⟨h1, by rw [h1]; exact hkeep⟩

/-- Claim C8 witness: a body that raises right away leaks
`g.plugin_name = "portal"` out of the context. -/
theorem plugin_name_migrate_exceptional_exit_witness :
    plugin_name_migrate "portal"
      (fun s => ((Except.error PyErr.typeError : Except PyErr Unit), s))
      ⟨none, []⟩ =
      (Except.error PyErr.typeError, (⟨some "portal", []⟩ : GState))
    ∧ (plugin_name_migrate "portal"
        (fun s => ((Except.error PyErr.typeError : Except PyErr Unit), s))
        ⟨none, []⟩).2.plugin_name = some "portal" :=
  plugin_name_migrate_exceptional_exit "portal"
    (fun s => ((Except.error PyErr.typeError : Except PyErr Unit), s))
    ⟨none, []⟩ ⟨some "portal", []⟩ PyErr.typeError rfl rfl

/-- Claim C5: with a non-`None` `settings_key`, `upgrade_database` invokes
the upgrade command on directory `<plugin_folder>/_migration_environment`
with revision `settings_key + '@' + target` (target defaulting to `head`),
and `downgrade_database` the downgrade command with the same directory and
revision scheme (target defaulting to `base`). -/
theorem upgrade_downgrade_database_spec (pf : String) (p : FlaskBBPlugin)
    (key target : String) (h : p.settings_key = some key) :
    upgrade_database pf p target =
      Except.ok
        ⟨ospath_join pf ["_migration_environment"], key ++ "@" ++ target⟩
    ∧ upgrade_database pf p =
      Except.ok
        ⟨ospath_join pf ["_migration_environment"], key ++ "@" ++ "head"⟩
    ∧ downgrade_database pf p target =
      Except.ok
        ⟨ospath_join pf ["_migration_environment"], key ++ "@" ++ target⟩
    ∧ downgrade_database pf p =
      Except.ok
        ⟨ospath_join pf ["_migration_environment"], key ++ "@" ++ "base"⟩ := by
  refine ⟨?_, ?_, ?_, ?_⟩ <;> simp [upgrade_database, downgrade_database, h]

/-- Claim C5 witness: the wrappers at a concrete plugin and target. -/
theorem upgrade_downgrade_database_spec_witness :
    upgrade_database "/plugins" ⟨"/plugins/portal", some "portal"⟩ "abc" =
      Except.ok
        ⟨ospath_join "/plugins" ["_migration_environment"],
          "portal" ++ "@" ++ "abc"⟩
    ∧ upgrade_database "/plugins" ⟨"/plugins/portal", some "portal"⟩ =
      Except.ok
        ⟨ospath_join "/plugins" ["_migration_environment"],
          "portal" ++ "@" ++ "head"⟩
    ∧ downgrade_database "/plugins" ⟨"/plugins/portal", some "portal"⟩ "abc" =
      Except.ok
        ⟨ospath_join "/plugins" ["_migration_environment"],
          "portal" ++ "@" ++ "abc"⟩
    ∧ downgrade_database "/plugins" ⟨"/plugins/portal", some "portal"⟩ =
      Except.ok
        ⟨ospath_join "/plugins" ["_migration_environment"],
          "portal" ++ "@" ++ "base"⟩ :=
  upgrade_downgrade_database_spec "/plugins"
    ⟨"/plugins/portal", some "portal"⟩ "portal" "abc" rfl

/-- Claim C6: `config_migrate` sets `version_locations` to the space-joined
migration version directories of all plugins exactly when the config's
`version_table` main option equals `plugins` (leaving every other option
unchanged); for any other `version_table` value the config is returned
unchanged. -/
theorem config_migrate_spec (plugins : List FlaskBBPlugin)
    (config : MigrationConfig) :
    (get_main_option config "version_table" = some "plugins" →
      get_main_option (config_migrate plugins config) "version_locations" =
        some (String.intercalate " "
          (plugins.map get_migration_version_dir))
      ∧ ∀ k, k ≠ "version_locations" →
        get_main_option (config_migrate plugins config) k =
          get_main_option config k)
    ∧ (get_main_option config "version_table" ≠ some "plugins" →
      config_migrate plugins config = config) := by
  constructor
  · intro h
    constructor
    · simp only [config_migrate, h, if_pos]
      exact dictGet_set_self _ _ _
    · intro k hk
      simp only [config_migrate, h, if_pos]
      exact dictGet_set_ne _ _ _ _ hk
  · intro h
    simp [config_migrate, h]

/-- Claim C6 witness: with `version_table = plugins` and one registered
plugin, `version_locations` is set to that plugin's migration version
directory and `version_table` itself is untouched. -/
theorem config_migrate_spec_witness :
    get_main_option
        (config_migrate [⟨"/plugins/portal", some "portal"⟩]
          ⟨[("version_table", "plugins")]⟩) "version_locations" =
      some (String.intercalate " "
        ([⟨"/plugins/portal", some "portal"⟩].map
          get_migration_version_dir))
    ∧ get_main_option
        (config_migrate [⟨"/plugins/portal", some "portal"⟩]
          ⟨[("version_table", "plugins")]⟩) "version_table" =
      get_main_option ⟨[("version_table", "plugins")]⟩ "version_table" := by
  have h :=
    (config_migrate_spec [⟨"/plugins/portal", some "portal"⟩]
      ⟨[("version_table", "plugins")]⟩).1 (by decide)
  exact ⟨h.1, h.2 "version_table" (by decide)⟩

/-- A package without a `__plugin__` attribute is skipped: the loop body
`continue`s with the state untouched and no exception. -/
theorem loadPluginStep_skip (st : LoadState) (pkg : PluginPackage)
    (h : pkg.dunder_plugin = none) : loadPluginStep st pkg = Except.ok st := by
  simp [loadPluginStep, h]

/-- The only exception `loadPluginStep` raises is a `PluginError` for the
class named by `__plugin__`. -/
theorem loadPluginStep_error_is_pluginError (st : LoadState)
    (pkg : PluginPackage) (e : PyErr)
    (h : loadPluginStep st pkg = Except.error e) :
    ∃ c, e = PyErr.pluginError c := by
  unfold loadPluginStep at h
  cases hdp : pkg.dunder_plugin with
  | none => rw [hdp] at h; simp at h
  | some c =>
    rw [hdp] at h
    dsimp only at h
    cases hcl : dictGet pkg.classAttrs c with
    | none =>
      rw [hcl] at h
      simp at h
      exact ⟨c, h.symm⟩
    | some cls => rw [hcl] at h; simp at h

/-- A step on a package that does not contribute identifier `i` leaves the
entries at `i` of `_plugins` and `_all_plugins` unchanged. -/
theorem loadPluginStep_preserve (st st' : LoadState) (pkg : PluginPackage)
    (i : String) (hne : pkgIdent pkg ≠ some i)
    (hok : loadPluginStep st pkg = Except.ok st') :
    dictGet st'._all_plugins i = dictGet st._all_plugins i
    ∧ dictGet st'._plugins i = dictGet st._plugins i := by
  unfold loadPluginStep at hok
  cases hdp : pkg.dunder_plugin with
  | none =>
    rw [hdp] at hok
    simp at hok
    rw [hok]
    exact ⟨rfl, rfl⟩
  | some cname =>
    rw [hdp] at hok
    dsimp only at hok
    cases hcl : dictGet pkg.classAttrs cname with
    | none => rw [hcl] at hok; simp at hok
    | some cls =>
      rw [hcl] at hok
      simp only at hok
      have hid : cls.identifier ≠ i := by
        intro hcontra
        exact hne (by simp [pkgIdent, hdp, hcl, hcontra])
      injection hok with hok'
      subst hok'
      constructor
      · exact dictGet_set_ne _ _ _ _ (fun hh => hid hh.symm)
      · cases hd : pkg.hasDisabled with
        | false =>
          simp only [hd, Bool.not_false, if_pos]
          exact dictGet_set_ne _ _ _ _ (fun hh => hid hh.symm)
        | true => simp [hd]

/-- A run of the loop over packages none of which contributes identifier `i`
leaves the entries at `i` unchanged. -/
theorem load_plugins_loop_preserve (i : String) (pkgs : List PluginPackage) :
    ∀ (st st' : LoadState),
    (∀ p ∈ pkgs, pkgIdent p ≠ some i) →
    load_plugins_loop st pkgs = Except.ok st' →
    dictGet st'._all_plugins i = dictGet st._all_plugins i
    ∧ dictGet st'._plugins i = dictGet st._plugins i := by
  induction pkgs with
  | nil =>
    intro st st' _ hok
    simp [load_plugins_loop] at hok
    rw [hok]
    exact ⟨rfl, rfl⟩
  | cons p ps ih =>
    intro st st' hall hok
    cases hstep : loadPluginStep st p with
    | error e => simp [load_plugins_loop, hstep] at hok
    | ok st1 =>
      simp only [load_plugins_loop, hstep] at hok
      have h1 :=
        loadPluginStep_preserve st st1 p i (hall p (List.mem_cons_self p ps))
          hstep
      have h2 := ih st1 st' (fun q hq => hall q (List.mem_cons_of_mem p hq)) hok
      exact ⟨h2.1.trans h1.1, h2.2.trans h1.2⟩

/-- A step on a package with a valid `__plugin__` class records the instance
in `_all_plugins`, and in `_plugins` exactly when the package is enabled
(given its identifier was not already present in `_plugins`). -/
theorem loadPluginStep_records (st st' : LoadState) (pkg : PluginPackage)
    (cname : String) (cls : PluginClass)
    (hdp : pkg.dunder_plugin = some cname)
    (hcl : dictGet pkg.classAttrs cname = some cls)
    (hok : loadPluginStep st pkg = Except.ok st')
    (hinit : dictGet st._plugins cls.identifier = none) :
    dictGet st'._all_plugins cls.identifier =
      some ⟨cls.identifier, pkg.pkgpath⟩
    ∧ (dictGet st'._plugins cls.identifier =
        some ⟨cls.identifier, pkg.pkgpath⟩ ↔ pkg.hasDisabled = false) := by
  unfold loadPluginStep at hok
  rw [hdp] at hok
  dsimp only at hok
  rw [hcl] at hok
  simp only at hok
  injection hok with hok'
  subst hok'
  constructor
  · exact dictGet_set_self _ _ _
  · cases hd : pkg.hasDisabled with
    | false =>
      simp only [hd, Bool.not_false, if_pos]
      simp [dictGet_set_self]
    | true =>
      simp only [hd, Bool.not_true, if_neg]
      simp [hinit]

/-- Generalised recording invariant for the package loop, by induction over
the package list from an arbitrary start state whose `_plugins` does not yet
hold the identifier. -/
theorem load_plugins_loop_records (pkg : PluginPackage) (cname : String)
    (cls : PluginClass) (hdp : pkg.dunder_plugin = some cname)
    (hcl : dictGet pkg.classAttrs cname = some cls)
    (pkgs : List PluginPackage) :
    ∀ (st0 st : LoadState), pkg ∈ pkgs →
    (pkgs.filterMap pkgIdent).Nodup →
    dictGet st0._plugins cls.identifier = none →
    load_plugins_loop st0 pkgs = Except.ok st →
    dictGet st._all_plugins cls.identifier =
      some ⟨cls.identifier, pkg.pkgpath⟩
    ∧ (dictGet st._plugins cls.identifier =
        some ⟨cls.identifier, pkg.pkgpath⟩ ↔ pkg.hasDisabled = false) := by
  have hpkgid : pkgIdent pkg = some cls.identifier := by
    simp [pkgIdent, hdp, hcl]
  induction pkgs with
  | nil =>
    intro st0 st hmem
    cases hmem
  | cons p ps ih =>
    intro st0 st hmem hnd hinit hok
    cases hstep : loadPluginStep st0 p with
    | error e => simp [load_plugins_loop, hstep] at hok
    | ok st1 =>
      simp only [load_plugins_loop, hstep] at hok
      rcases List.mem_cons.mp hmem with heq | hmem'
      · subst heq
        rw [List.filterMap_cons_some hpkgid] at hnd
        have hnd2 := List.nodup_cons.mp hnd
        have hrest : ∀ q ∈ ps, pkgIdent q ≠ some cls.identifier := by
          intro q hq hqi
          exact hnd2.1 (List.mem_filterMap.mpr ⟨q, hq, hqi⟩)
        have h1 := loadPluginStep_records st0 st1 pkg cname cls hdp hcl
          hstep hinit
        have h2 := load_plugins_loop_preserve cls.identifier ps st1 st
          hrest hok
        rw [h2.1, h2.2]
        exact h1
      · have hpne : pkgIdent p ≠ some cls.identifier := by
          intro hpi
          rw [List.filterMap_cons_some hpi] at hnd
          exact (List.nodup_cons.mp hnd).1
            (List.mem_filterMap.mpr ⟨pkg, hmem', hpkgid⟩)
        have hnd' : (ps.filterMap pkgIdent).Nodup := by
          cases hpi0 : pkgIdent p with
          | none => rw [List.filterMap_cons_none hpi0] at hnd; exact hnd
          | some j =>
            rw [List.filterMap_cons_some hpi0] at hnd
            exact (List.nodup_cons.mp hnd).2
        have hinit1 : dictGet st1._plugins cls.identifier = none := by
          rw [(loadPluginStep_preserve st0 st1 p cls.identifier hpne
            hstep).2]
          exact hinit
        exact ih st1 st hmem' hnd' hinit1 hok

/-- If some scanned package names a `__plugin__` class that does not exist,
the loop raises a `PluginError` (either at that package or at an earlier
offender). -/
theorem load_plugins_loop_error (pkgs : List PluginPackage) :
    ∀ (st : LoadState) (pkg : PluginPackage) (cname : String),
    pkg ∈ pkgs → pkg.dunder_plugin = some cname →
    dictGet pkg.classAttrs cname = none →
    ∃ c, load_plugins_loop st pkgs = Except.error (PyErr.pluginError c) := by
  induction pkgs with
  | nil =>
    intro st pkg cname hmem
    cases hmem
  | cons p ps ih =>
    intro st pkg cname hmem hdp hcl
    cases hstep : loadPluginStep st p with
    | error e =>
      rcases loadPluginStep_error_is_pluginError st p e hstep with ⟨c, hc⟩
      refine ⟨c, ?_⟩
      simp [load_plugins_loop, hstep, hc]
    | ok st1 =>
      rcases List.mem_cons.mp hmem with heq | hmem'
      · subst heq
        exfalso
        unfold loadPluginStep at hstep
        rw [hdp] at hstep
        dsimp only at hstep
        rw [hcl] at hstep
        simp at hstep
      · rcases ih st1 pkg cname hmem' hdp hcl with ⟨c, hc⟩
        exact ⟨c, by simp [load_plugins_loop, hstep, hc]⟩

/-- Removing a package without a `__plugin__` attribute from the scan does
not change the result of the loop. -/
theorem load_plugins_loop_skip_append (pkg : PluginPackage)
    (h : pkg.dunder_plugin = none) (l1 : List PluginPackage) :
    ∀ (st : LoadState) (l2 : List PluginPackage),
    load_plugins_loop st (l1 ++ pkg :: l2) =
      load_plugins_loop st (l1 ++ l2) := by
  induction l1 with
  | nil =>
    intro st l2
    simp only [List.nil_append]
    simp [load_plugins_loop, loadPluginStep_skip st pkg h]
  | cons q l1 ih =>
    intro st l2
    simp only [List.cons_append]
    cases hstep : loadPluginStep st q with
    | error e => simp [load_plugins_loop, hstep]
    | ok st1 => simp [load_plugins_loop, hstep, ih st1 l2]

/-- Claim C2: every scanned package defining a valid `__plugin__` class has
its instantiated plugin recorded in `_all_plugins` under its identifier, and
recorded in `_plugins` if and only if the package carries no DISABLED marker
(assuming, as the dictionaries presuppose, that the valid packages have
pairwise distinct identifiers). -/
theorem load_plugins_records (found0 : List (String × String))
    (pkgs : List PluginPackage) (pkg : PluginPackage) (cname : String)
    (cls : PluginClass) (st : LoadState)
    (hmem : pkg ∈ pkgs)
    (hdp : pkg.dunder_plugin = some cname)
    (hcl : dictGet pkg.classAttrs cname = some cls)
    (hnd : (pkgs.filterMap pkgIdent).Nodup)
    (hok : load_plugins found0 pkgs = Except.ok st) :
    dictGet st._all_plugins cls.identifier =
      some ⟨cls.identifier, pkg.pkgpath⟩
    ∧ (dictGet st._plugins cls.identifier =
        some ⟨cls.identifier, pkg.pkgpath⟩ ↔ pkg.hasDisabled = false) :=
  load_plugins_loop_records pkg cname cls hdp hcl pkgs ⟨[], [], found0⟩ st
    hmem hnd rfl hok

/-- Claim C2 witness: an enabled portal package and a disabled forum package
are both recorded in `_all_plugins`, and the enabled one in `_plugins`. -/
theorem load_plugins_records_witness :
    dictGet
        (⟨[("portal", ⟨"portal", "/plugins/portal"⟩)],
          [("forum", ⟨"forum", "/plugins/forum"⟩),
            ("portal", ⟨"portal", "/plugins/portal"⟩)],
          [("ForumPlugin", "flaskbb.plugins.forum"),
            ("PortalPlugin", "flaskbb.plugins.portal")]⟩ :
          LoadState)._all_plugins "portal" =
      some ⟨"portal", "/plugins/portal"⟩
    ∧ (dictGet
        (⟨[("portal", ⟨"portal", "/plugins/portal"⟩)],
          [("forum", ⟨"forum", "/plugins/forum"⟩),
            ("portal", ⟨"portal", "/plugins/portal"⟩)],
          [("ForumPlugin", "flaskbb.plugins.forum"),
            ("PortalPlugin", "flaskbb.plugins.portal")]⟩ :
          LoadState)._plugins "portal" =
        some ⟨"portal", "/plugins/portal"⟩ ↔ false = false) :=
  load_plugins_records []
    [⟨"flaskbb.plugins.portal", false, some "PortalPlugin",
        [("PortalPlugin", ⟨"portal"⟩)], "/plugins/portal"⟩,
      ⟨"flaskbb.plugins.forum", true, some "ForumPlugin",
        [("ForumPlugin", ⟨"forum"⟩)], "/plugins/forum"⟩]
    ⟨"flaskbb.plugins.portal", false, some "PortalPlugin",
      [("PortalPlugin", ⟨"portal"⟩)], "/plugins/portal"⟩
    "PortalPlugin" ⟨"portal"⟩ _
    (by simp) rfl rfl (by decide) rfl

/-- Claim C3: a scanned package without a `__plugin__` attribute is skipped
silently — the loop step returns the state unchanged without raising, and
removing such a package from the scan leaves the result of `load_plugins`
unchanged — whereas a package whose `__plugin__` names a class that does not
exist in the package makes `load_plugins` raise a `PluginError`. -/
theorem load_plugins_skip_and_error :
    (∀ (st : LoadState) (pkg : PluginPackage), pkg.dunder_plugin = none →
      loadPluginStep st pkg = Except.ok st)
    ∧ (∀ (found0 : List (String × String)) (pkg : PluginPackage)
        (l1 l2 : List PluginPackage), pkg.dunder_plugin = none →
        load_plugins found0 (l1 ++ pkg :: l2) =
          load_plugins found0 (l1 ++ l2))
    ∧ (∀ (found0 : List (String × String)) (pkgs : List PluginPackage)
        (pkg : PluginPackage) (cname : String), pkg ∈ pkgs →
        pkg.dunder_plugin = some cname →
        dictGet pkg.classAttrs cname = none →
        ∃ c, load_plugins found0 pkgs =
          Except.error (PyErr.pluginError c)) :=
  ⟨fun st pkg h => loadPluginStep_skip st pkg h,
    fun found0 pkg l1 l2 h =>
      load_plugins_loop_skip_append pkg h l1 ⟨[], [], found0⟩ l2,
    fun found0 pkgs pkg cname hmem hdp hcl =>
      load_plugins_loop_error pkgs ⟨[], [], found0⟩ pkg cname hmem hdp hcl⟩

/-- Claim C3 witness: a package with no `__plugin__` is skipped with the
state untouched, and a package naming a missing class makes `load_plugins`
raise a `PluginError`. -/
theorem load_plugins_skip_and_error_witness :
    loadPluginStep ⟨[], [], []⟩
        ⟨"flaskbb.plugins.empty", false, none, [], "/plugins/empty"⟩ =
      Except.ok ⟨[], [], []⟩
    ∧ ∃ c, load_plugins []
        [⟨"flaskbb.plugins.broken", false, some "BrokenPlugin", [],
            "/plugins/broken"⟩] =
        Except.error (PyErr.pluginError c) :=
  ⟨load_plugins_skip_and_error.1 ⟨[], [], []⟩
      ⟨"flaskbb.plugins.empty", false, none, [], "/plugins/empty"⟩ rfl,
    load_plugins_skip_and_error.2.2 []
      [⟨"flaskbb.plugins.broken", false, some "BrokenPlugin", [],
          "/plugins/broken"⟩]
      ⟨"flaskbb.plugins.broken", false, some "BrokenPlugin", [],
        "/plugins/broken"⟩
      "BrokenPlugin" (by simp) rfl rfl⟩
